import Mathlib

/-!
Shallow embedding of the Prometheus dashboard serverless API
(netlify/functions/api.js) and verification of its specification.

Conventions of the embedding:
* JavaScript timestamps (millisecond epoch values from Date) are `Int`.
* JavaScript numbers used in arithmetic are `ℚ` (the source performs no
  operation whose float rounding any claim depends on; decimal literals
  such as 0.083 and 0.8 are exact in `ℚ`).
* A Firestore document is a structure of `Option` fields: `none` models a
  field absent from the stored document, mirroring `undefined` reads.
* The document store is a quadruple of collections; a filtered query is a
  `List.filter` over the collection, an update-by-id is a `List.map`, and
  `add` appends a document under a freshly generated id that the embedding
  receives as an explicit argument.
* Store-connectivity failures (the catch branches that surface the message
  of the store error as a 500) are unreachable here because the embedded
  store never fails; the JSON.parse failure paths are modelled explicitly.
-/

namespace Prometheus

/-- Stored metrics object of an agent document (`data.metrics`). -/
structure Metrics where
  uptime_hours : Option ℚ := none
  tasks_completed : Option Nat := none
  error_rate : Option ℚ := none
deriving DecidableEq

/-- Agent document of the `prometheus_agents` collection. -/
structure AgentDoc where
  last_heartbeat : Option Int := none
  version : Option String := none
  description : Option String := none
  capabilities : Option (List String) := none
  metrics : Option Metrics := none
deriving DecidableEq

/-- Lead document of the `leads` collection. -/
structure Lead where
  created : Option Int := none
  status : Option String := none
  score : Option ℚ := none
deriving DecidableEq

/-- Alert document of the `system_alerts` collection. -/
structure Alert where
  severity : Option String := none
  message : Option String := none
  agent_id : Option String := none
  timestamp : Option Int := none
  resolved : Option Bool := none
  resolved_at : Option Int := none
  resolved_by : Option String := none
deriving DecidableEq

/-- Workflow document of the `workflows` collection. -/
structure WorkflowDoc where
  name : Option String := none
  description : Option String := none
  trigger : Option String := none
  steps : Option (List String) := none
  status : Option String := none
  created : Option Int := none
  created_by : Option String := none
  completed_today : Option Nat := none
deriving DecidableEq

/-- The four document collections the handlers touch. Documents of keyed
collections are paired with their document id. -/
structure Store where
  agents : List (String × AgentDoc)
  leads : List Lead
  alerts : List (String × Alert)
  workflows : List (String × WorkflowDoc)
deriving DecidableEq

/-- The fields any handler reads out of a parsed JSON request body.
`none` models an absent key. A caller may also supply the fields the
workflow-creation handler refuses to honour (status, completed_today,
created, created_by). -/
structure JsObj where
  name : Option String := none
  description : Option String := none
  trigger : Option String := none
  steps : Option (List String) := none
  status : Option String := none
  completed_today : Option Nat := none
  created : Option Int := none
  created_by : Option String := none
  command : Option String := none
deriving DecidableEq

/-- The raw request body as the handlers see it: absent (null or empty
string), present but not valid JSON, or present and parsed. -/
inductive RawBody where
  | absent
  | malformed
  | valid (obj : JsObj)
deriving DecidableEq

/-- Embedding of `JSON.parse(body ... fallback to the empty object)`:
an absent body parses as the empty object, a malformed body throws
(modelled as `none`, which each caller turns into its 500 branch). -/
def parseBody : RawBody → Option JsObj
  | .absent => some {}
  | .malformed => none
  | .valid o => some o

/-- The error raised inside a handler, carried by the 500 response. -/
inductive ApiError where
  | jsonParse
  | docMissing (id : String)
deriving DecidableEq

/-- JavaScript `Math.round`: nearest integer, ties toward positive
infinity. -/
def mathRound (q : ℚ) : Int := ⌊q + 1 / 2⌋

/-- JavaScript `Number.prototype.toFixed(1)`: the decimal string with one
digit after the point, rounding to the nearest tenth with ties taken to
the larger numerator. -/
def toFixed1 (q : ℚ) : String :=
  let n : Int := ⌊10 * q + 1 / 2⌋
  if n < 0 then "-" ++ toString ((-n) / 10) ++ "." ++ toString ((-n) % 10)
  else toString (n / 10) ++ "." ++ toString (n % 10)

/-- Milliseconds per day, the granularity of `Date.prototype.setHours`
truncation. -/
def msPerDay : Int := 86400000

/-- `new Date(t).setHours(0, 0, 0, 0)` for a timezone whose local clock
runs `tzOffset` milliseconds ahead of the epoch clock: the most recent
local midnight at or before `t`. -/
def floorDay (tzOffset t : Int) : Int := t - (t + tzOffset) % msPerDay

/-- The CORS headers attached to every response. -/
def corsHeaders : List (String × String) :=
  [("Access-Control-Allow-Origin", "*"),
   ("Access-Control-Allow-Headers", "Content-Type, Authorization"),
   ("Access-Control-Allow-Methods", "GET, POST, PUT, DELETE, OPTIONS"),
   ("Content-Type", "application/json")]

/-- One agent record of the agent-listing response. -/
structure ShapedAgent where
  id : String
  name : String
  version : String
  status : String
  description : String
  uptime : String
  tasksCompleted : Nat
  errorRate : ℚ
  lastHeartbeat : Int
  capabilities : List String
  metrics : Metrics
deriving DecidableEq

/-- Payload of the agent-listing response: the id-to-record mapping (kept
as an ordered association list) and the computation timestamp. -/
structure AgentsResult where
  agents : List (String × ShapedAgent)
  timestamp : Int
deriving DecidableEq

/-- The metrics object of the lead-metrics response. -/
structure LeadMetrics where
  total : Nat
  today : Nat
  pending : Nat
  hot : Nat
  conversionRate : String
deriving DecidableEq

/-- Payload of the lead-metrics response. -/
structure LeadMetricsResult where
  metrics : LeadMetrics
  timestamp : Int
deriving DecidableEq

/-- One shaped alert of the active-alerts response; the timestamp is kept
as a millisecond value (the source renders it as an ISO string). -/
structure ShapedAlert where
  id : String
  severity : String
  message : Option String
  agent : String
  timestamp : Int
deriving DecidableEq

/-- Severity summary of the active-alerts response. -/
structure AlertSummary where
  total : Nat
  critical : Nat
  warning : Nat
  info : Nat
deriving DecidableEq

/-- Payload of the active-alerts response. -/
structure AlertsPayload where
  alerts : List ShapedAlert
  summary : AlertSummary
deriving DecidableEq

/-- One shaped workflow of the workflow-list response. -/
structure ShapedWorkflow where
  id : String
  name : String
  status : String
  steps : Nat
  completedToday : Nat
  created : Option Int
deriving DecidableEq

/-- Payload of the ROI response. -/
structure RoiResult where
  agents_deployed : Nat
  total_leads_processed : Nat
  leads_converted : Nat
  conversion_rate : String
  time_saved_hours_annual : Int
  cost_savings_annual : Int
  revenue_from_leads_annual : Int
  total_roi_annual : Int
  roi_multiple : String
deriving DecidableEq

/-- The JSON body of a response, kept structured. -/
inductive RespBody where
  | empty
  | errorOnly (error : String)
  | failure (error : ApiError)
  | agentsOk (r : AgentsResult)
  | commandAck (message : String) (command : Option String)
  | leadMetricsOk (r : LeadMetricsResult)
  | alertsOk (r : AlertsPayload)
  | resolvedOk (message : String)
  | workflowsOk (ws : List ShapedWorkflow)
  | workflowCreated (workflow_id : String) (message : String)
  | roiOk (r : RoiResult)
deriving DecidableEq

/-- The serialization the 404 branch applies to its body, namely
JSON.stringify of a one-key object whose value is a plain string with no
characters needing escapes. -/
def stringifyErrorOnly (e : String) : String :=
  "\x7b\"error\":\"" ++ e ++ "\"\x7d"

/-- A full HTTP response of the function. -/
structure Response where
  statusCode : Nat
  headers : List (String × String)
  body : RespBody
deriving DecidableEq

/-- `agentId.charAt(0).toUpperCase() + agentId.slice(1)`. -/
def capitalizeFirst (s : String) : String :=
  match s.toList with
  | [] => ""
  | c :: cs => String.mk (c.toUpper :: cs)

/-- Seconds elapsed between `now` and the stored heartbeat of the
document (which falls back to `now` itself when absent):
`(now - lastHeartbeat) / 1000`. -/
def elapsedSeconds (now : Int) (d : AgentDoc) : ℚ :=
  ((now - d.last_heartbeat.getD now : Int) : ℚ) / 1000

/-- The status derivation of the agent-listing handler:
healthy unless the heartbeat is stale. -/
def agentStatus (timeSinceHeartbeat : ℚ) : String :=
  if timeSinceHeartbeat > 300 then "offline"
  else if timeSinceHeartbeat > 60 then "degraded"
  else "healthy"

/-- Shape one agent document into its response record. -/
def shapeAgent (now : Int) (p : String × AgentDoc) : String × ShapedAgent :=
  let agentId := p.1
  let data := p.2
  let lastHeartbeat := data.last_heartbeat.getD now
  (agentId,
   { id := agentId,
     name := capitalizeFirst agentId,
     version := data.version.getD "1.0.0",
     status := agentStatus (elapsedSeconds now data),
     description := data.description.getD (agentId ++ " Agent"),
     uptime := toFixed1 ((data.metrics.bind (fun m => m.uptime_hours)).getD 0) ++ " hours",
     tasksCompleted := (data.metrics.bind (fun m => m.tasks_completed)).getD 0,
     errorRate := (data.metrics.bind (fun m => m.error_rate)).getD 0,
     lastHeartbeat := lastHeartbeat,
     capabilities := data.capabilities.getD [],
     metrics := data.metrics.getD {} })

/-- The agent-listing handler (GET /agents). -/
def handleGetAgents (now : Int) (docs : List (String × AgentDoc)) : AgentsResult :=
  { agents := docs.map (shapeAgent now), timestamp := now }

/-- The agent-command handler (POST /agents/:id/command). The parsed
command is logged only; a body that fails to parse raises, and the catch
branch returns a 500. -/
def handleAgentCommand (agentId : String) (body : RawBody) : Response :=
  match parseBody body with
  | none =>
      { statusCode := 500, headers := corsHeaders, body := .failure .jsonParse }
  | some command =>
      { statusCode := 200, headers := corsHeaders,
        body := .commandAck ("Command sent to " ++ agentId) command.command }

/-- Query predicate `where("created", ">=", t0)`: documents whose created
field is present and at least `t0`. -/
def leadCreatedSince (t0 : Int) (l : Lead) : Bool :=
  l.created.any (fun c => decide (t0 ≤ c))

/-- Query predicate `where("status", "==", s)`. -/
def leadHasStatus (s : String) (l : Lead) : Bool :=
  l.status == some s

/-- The in-memory hot-lead test `data.score > 0.8` (false when the score
field is absent, as a comparison against undefined is). -/
def leadIsHot (l : Lead) : Bool :=
  l.score.any (fun sc => decide ((0.8 : ℚ) < sc))

/-- The lead-metrics handler (GET /leads/metrics). Note the source
computes `todayStart` as `new Date(now.setHours(0, 0, 0, 0))`: setHours
MUTATES the invocation-time Date in place, so the `now` used for the
response timestamp is local midnight, not the invocation time. -/
def handleGetLeadMetrics (tzOffset nowArg : Int) (leads : List Lead) : LeadMetricsResult :=
  let todayStart := floorDay tzOffset nowArg
  let now := todayStart
  let totalLeads := leads.length
  let leadsToday := (leads.filter (leadCreatedSince todayStart)).length
  let pendingCount := (leads.filter (leadHasStatus "PENDING_RESEARCH")).length
  let hotCount := (leads.filter leadIsHot).length
  let convertedCount := (leads.filter (leadHasStatus "CONVERTED")).length
  let conversionRate : ℚ :=
    if totalLeads > 0 then (convertedCount : ℚ) / (totalLeads : ℚ) * 100 else 0
  { metrics :=
      { total := totalLeads,
        today := leadsToday,
        pending := pendingCount,
        hot := hotCount,
        conversionRate := toFixed1 conversionRate },
    timestamp := now }

/-- Shape one alert document into its response record. Missing fields pick
up the defaults of the source; a missing timestamp falls back to the
invocation time. -/
def shapeAlert (now : Int) (p : String × Alert) : ShapedAlert :=
  { id := p.1,
    severity := p.2.severity.getD "info",
    message := p.2.message,
    agent := p.2.agent_id.getD "system",
    timestamp := p.2.timestamp.getD now }

/-- Insertion step of the descending order by timestamp that the
`orderBy("timestamp", "desc")` query applies. -/
def insertByTimestampDesc (x : ShapedAlert) : List ShapedAlert → List ShapedAlert
  | [] => [x]
  | y :: ys => if y.timestamp ≤ x.timestamp then x :: y :: ys
               else y :: insertByTimestampDesc x ys

/-- Sort by timestamp, newest first. -/
def sortByTimestampDesc : List ShapedAlert → List ShapedAlert
  | [] => []
  | x :: xs => insertByTimestampDesc x (sortByTimestampDesc xs)

/-- The active-alerts handler (GET /alerts/active): unresolved alerts
ordered by timestamp descending, capped at 50, with a severity summary
over the returned list. -/
def handleGetAlerts (now : Int) (alerts : List (String × Alert)) : AlertsPayload :=
  let shaped := (alerts.filter (fun p => p.2.resolved == some false)).map (shapeAlert now)
  let ordered := (sortByTimestampDesc shaped).take 50
  { alerts := ordered,
    summary :=
      { total := ordered.length,
        critical := (ordered.filter (fun a => a.severity == "critical")).length,
        warning := (ordered.filter (fun a => a.severity == "warning")).length,
        info := (ordered.filter (fun a => a.severity == "info")).length } }

/-- The field update the alert-resolution handler writes. -/
def resolveUpdate (now : Int) (a : Alert) : Alert :=
  { a with resolved := some true, resolved_at := some now,
           resolved_by := some "dashboard_user" }

/-- The alert-resolution handler (POST /alerts/:id/resolve). A Firestore
update on a missing document raises, surfacing as the 500 catch branch;
on an existing document the update is applied unconditionally. -/
def handleResolveAlert (alertId : String) (now : Int)
    (alerts : List (String × Alert)) : Response × List (String × Alert) :=
  if alerts.any (fun p => p.1 == alertId) then
    ({ statusCode := 200, headers := corsHeaders,
       body := .resolvedOk ("Alert " ++ alertId ++ " resolved") },
     alerts.map (fun p => if p.1 == alertId then (p.1, resolveUpdate now p.2) else p))
  else
    ({ statusCode := 500, headers := corsHeaders,
       body := .failure (.docMissing alertId) }, alerts)

/-- The workflow-list handler (GET /workflows). -/
def handleGetWorkflows (ws : List (String × WorkflowDoc)) : List ShapedWorkflow :=
  ws.map (fun p =>
    { id := p.1,
      name := p.2.name.getD "Unnamed Workflow",
      status := p.2.status.getD "inactive",
      steps := (p.2.steps.map (fun s => s.length)).getD 0,
      completedToday := p.2.completed_today.getD 0,
      created := p.2.created })

/-- The workflow document the creation handler builds: caller-supplied
name, description, trigger and steps (with defaults), and handler-fixed
status, created, created_by and completed_today. -/
def buildWorkflow (now : Int) (wd : JsObj) : WorkflowDoc :=
  { name := some (wd.name.getD "New Workflow"),
    description := some (wd.description.getD ""),
    trigger := some (wd.trigger.getD "manual"),
    steps := some (wd.steps.getD []),
    status := some "active",
    created := some now,
    created_by := some "dashboard_user",
    completed_today := some 0 }

/-- The workflow-creation handler (POST /workflows). `newId` is the id
the store generates for the inserted document. A body that fails to
parse raises before anything is built, and the catch branch returns a
500 with nothing persisted. -/
def handleCreateWorkflow (now : Int) (newId : String) (body : RawBody)
    (ws : List (String × WorkflowDoc)) : Response × List (String × WorkflowDoc) :=
  match parseBody body with
  | none =>
      ({ statusCode := 500, headers := corsHeaders, body := .failure .jsonParse }, ws)
  | some wd =>
      ({ statusCode := 200, headers := corsHeaders,
         body := .workflowCreated newId "Workflow created successfully" },
       ws ++ [(newId, buildWorkflow now wd)])

/-- The ROI handler (POST /roi/calculate). All business constants are
fixed: 50000 tasks (a placeholder, not derived from agent metrics),
0.083 hours saved per task, 75 dollars per hour, 5000 dollars per deal,
a 50000 dollar investment baseline. -/
def handleCalculateROI (agents : List (String × AgentDoc)) (leads : List Lead) : RoiResult :=
  let agentsCount := agents.length
  let totalLeads := leads.length
  let convertedLeads := (leads.filter (leadHasStatus "CONVERTED")).length
  let tasksCompleted : ℚ := 50000
  let timesSavedHours : ℚ := tasksCompleted * 0.083
  let annualTimeSavings : ℚ := timesSavedHours * 75 * 12
  let conversionRate : ℚ :=
    if totalLeads > 0 then (convertedLeads : ℚ) / (totalLeads : ℚ) else 0.15
  let annualLeadRevenue : ℚ := (convertedLeads : ℚ) * 5000 * 12
  let totalROI : ℚ := annualTimeSavings + annualLeadRevenue
  { agents_deployed := agentsCount,
    total_leads_processed := totalLeads,
    leads_converted := convertedLeads,
    conversion_rate := toFixed1 (conversionRate * 100),
    time_saved_hours_annual := mathRound (timesSavedHours * 12),
    cost_savings_annual := mathRound annualTimeSavings,
    revenue_from_leads_annual := mathRound annualLeadRevenue,
    total_roi_annual := mathRound totalROI,
    roi_multiple := toFixed1 (totalROI / 50000) }

/-- The selected route. -/
inductive Routed where
  | getAgents
  | agentCommand (id : String)
  | leadMetrics
  | alertsActive
  | resolveAlert (id : String)
  | getWorkflows
  | createWorkflow
  | calculateROI
  | notFound
deriving DecidableEq

/-- `path.split("/").filter(Boolean)`: the non-empty slash-separated
segments of the path (already stripped of the function prefix). -/
def segsAux : List Char → List Char → List String
  | [], acc => if acc.isEmpty then [] else [String.mk acc.reverse]
  | c :: cs, acc =>
      if c = '/' then
        (if acc.isEmpty then segsAux cs [] else String.mk acc.reverse :: segsAux cs [])
      else segsAux cs (c :: acc)

/-- The segment list of a path string. -/
def segmentsOf (path : String) : List String := segsAux path.toList []

/-- The ordered route table of the switch statement: the first matching
case wins, and a fall-through reaches the default 404 case. -/
def route (method : String) (s : List String) : Routed :=
  if method = "GET" ∧ s.get? 0 = some "agents" ∧ s.get? 1 = none then .getAgents
  else if method = "POST" ∧ s.get? 0 = some "agents" ∧ s.get? 2 = some "command" then
    .agentCommand ((s.get? 1).getD "")
  else if method = "GET" ∧ s.get? 0 = some "leads" ∧ s.get? 1 = some "metrics" then .leadMetrics
  else if method = "GET" ∧ s.get? 0 = some "alerts" ∧ s.get? 1 = some "active" then .alertsActive
  else if method = "POST" ∧ s.get? 0 = some "alerts" ∧ s.get? 2 = some "resolve" then
    .resolveAlert ((s.get? 1).getD "")
  else if method = "GET" ∧ s.get? 0 = some "workflows" then .getWorkflows
  else if method = "POST" ∧ s.get? 0 = some "workflows" then .createWorkflow
  else if method = "POST" ∧ s.get? 0 = some "roi" ∧ s.get? 1 = some "calculate" then .calculateROI
  else .notFound

/-- The top-level function handler: CORS preflight, then routing, then
the selected handler against the store. Returns the response paired with
the store as left by the invocation. -/
def dispatch (tz now : Int) (newId : String) (st : Store) (method path : String)
    (body : RawBody) : Response × Store :=
  if method = "OPTIONS" then
    ({ statusCode := 200, headers := corsHeaders, body := .empty }, st)
  else
    match route method (segmentsOf path) with
    | .getAgents =>
        ({ statusCode := 200, headers := corsHeaders,
           body := .agentsOk (handleGetAgents now st.agents) }, st)
    | .agentCommand i => (handleAgentCommand i body, st)
    | .leadMetrics =>
        ({ statusCode := 200, headers := corsHeaders,
           body := .leadMetricsOk (handleGetLeadMetrics tz now st.leads) }, st)
    | .alertsActive =>
        ({ statusCode := 200, headers := corsHeaders,
           body := .alertsOk (handleGetAlerts now st.alerts) }, st)
    | .resolveAlert i =>
        let r := handleResolveAlert i now st.alerts
        (r.1, { st with alerts := r.2 })
    | .getWorkflows =>
        ({ statusCode := 200, headers := corsHeaders,
           body := .workflowsOk (handleGetWorkflows st.workflows) }, st)
    | .createWorkflow =>
        let r := handleCreateWorkflow now newId body st.workflows
        (r.1, { st with workflows := r.2 })
    | .calculateROI =>
        ({ statusCode := 200, headers := corsHeaders,
           body := .roiOk (handleCalculateROI st.agents st.leads) }, st)
    | .notFound =>
        ({ statusCode := 404, headers := corsHeaders,
           body := .errorOnly "Endpoint not found" }, st)

/-! ## Helper lemmas about the alert-resolution update -/

/-- The update map of the resolution handler never changes document ids,
so a key-membership test is unaffected by it. -/
theorem mapUpd_any (i : String) (n : Int) (as : List (String × Alert)) :
    (as.map (fun p => if p.1 == i then (p.1, resolveUpdate n p.2) else p)).any
        (fun p => p.1 == i)
      = as.any (fun p => p.1 == i) := by
  induction as with
  | nil => rfl
  | cons q qs ih =>
      simp only [List.map_cons, List.any_cons, ih]
      by_cases hqi : q.1 = i
      · rw [if_pos (by simp [hqi])]
      · rw [if_neg (by simp [hqi])]

/-- On an existing alert id the resolution handler returns a 200. -/
theorem resolveAlert_status_ok (i : String) (n : Int) (as : List (String × Alert))
    (h : as.any (fun p => p.1 == i) = true) :
    (handleResolveAlert i n as).1.statusCode = 200 := by
  unfold handleResolveAlert
  rw [if_pos h]

/-- After the resolution handler runs, every alert carrying the resolved
id has resolved set, the resolution time stamped and the fixed resolver
identity recorded (vacuously when the id was missing and the store update
raised). -/
theorem resolveAlert_sets_fields (i : String) (n : Int) (as : List (String × Alert)) :
    ∀ p ∈ (handleResolveAlert i n as).2, p.1 = i →
      p.2.resolved = some true ∧ p.2.resolved_at = some n
        ∧ p.2.resolved_by = some "dashboard_user" := by
  unfold handleResolveAlert
  by_cases h : as.any (fun p => p.1 == i) = true
  · rw [if_pos h]
    intro p hp hpi
    rcases List.mem_map.mp hp with ⟨q, hq, he⟩
    by_cases hqi : q.1 = i
    · rw [if_pos (by simp [hqi])] at he
      subst he
      simp [resolveUpdate]
    · rw [if_neg (by simp [hqi])] at he
      subst he
      exact absurd hpi hqi
  · rw [if_neg h]
    intro p hp hpi
    rw [List.any_eq_true] at h
    exact absurd ⟨p, hp, by simp [hpi]⟩ h

/-- The resolution handler preserves which ids are present. -/
theorem resolveAlert_any_preserved (i : String) (n : Int) (as : List (String × Alert)) :
    ((handleResolveAlert i n as).2).any (fun p => p.1 == i)
      = as.any (fun p => p.1 == i) := by
  unfold handleResolveAlert
  by_cases h : as.any (fun p => p.1 == i) = true
  · rw [if_pos h]
    exact mapUpd_any i n as
  · rw [if_neg h]

/-- The resolution handler never clears a resolved flag: alerts of a
given id that were all resolved stay resolved. -/
theorem resolveAlert_resolved_mono (i : String) (n : Int) (as : List (String × Alert))
    (id0 : String) (h : ∀ p ∈ as, p.1 = id0 → p.2.resolved = some true) :
    ∀ p ∈ (handleResolveAlert i n as).2, p.1 = id0 → p.2.resolved = some true := by
  unfold handleResolveAlert
  by_cases ha : as.any (fun p => p.1 == i) = true
  · rw [if_pos ha]
    intro p hp hpi
    rcases List.mem_map.mp hp with ⟨q, hq, he⟩
    by_cases hqi : q.1 = i
    · rw [if_pos (by simp [hqi])] at he
      subst he
      simp [resolveUpdate]
    · rw [if_neg (by simp [hqi])] at he
      subst he
      exact h q hq hpi
  · rw [if_neg ha]
    exact h

/-- No route of the system clears a resolved flag: across a full
dispatch of any request, alerts of a given id that were all resolved
stay resolved. -/
theorem dispatch_resolved_mono (tz now : Int) (newId : String) (st : Store)
    (method path : String) (body : RawBody) (id0 : String)
    (h : ∀ p ∈ st.alerts, p.1 = id0 → p.2.resolved = some true) :
    ∀ p ∈ (dispatch tz now newId st method path body).2.alerts,
      p.1 = id0 → p.2.resolved = some true := by
  unfold dispatch
  by_cases hm : method = "OPTIONS"
  · rw [if_pos hm]
    exact h
  · rw [if_neg hm]
    cases hr : route method (segmentsOf path) with
    | getAgents => exact h
    | agentCommand i => exact h
    | leadMetrics => exact h
    | alertsActive => exact h
    | resolveAlert i => exact resolveAlert_resolved_mono i now st.alerts id0 h
    | getWorkflows => exact h
    | createWorkflow =>
        cases body with
        | absent => exact h
        | malformed => exact h
        | valid o => exact h
    | calculateROI => exact h
    | notFound => exact h

/-! ## Claim theorems -/

/-- C1 (counterexample): the claim states that an elapsed time of exactly
60 seconds yields status degraded; the agent-listing handler instead
yields healthy there, because its comparisons are strict
(timeSinceHeartbeat greater than 60, greater than 300). An agent whose
heartbeat lies exactly 60000 milliseconds before the invocation time is
reported healthy, not degraded. -/
theorem C1_boundary_counterexample :
    ((handleGetAgents 60000 [("a", { last_heartbeat := some 0 })]).agents.map
        (fun p => p.2.status)) = ["healthy"]
    ∧ "healthy" ≠ "degraded" := by
  constructor
  · simp only [handleGetAgents, shapeAgent, agentStatus, elapsedSeconds, List.map]
    norm_num
  · decide

/-- C1 (amended): for every agent document the status returned by the
agent-listing handler is one of healthy, degraded, offline and is a pure
function of the elapsed seconds between invocation time and the last
heartbeat of the agent: at most 60 seconds yields healthy, more than 60
and at most 300 yields degraded, and more than 300 yields offline (so
elapsed exactly 60 yields healthy and elapsed exactly 300 yields
degraded). -/
theorem C1_agent_status_amended :
    (∀ now docs, (handleGetAgents now docs).agents = docs.map (shapeAgent now))
    ∧ (∀ now i d, (shapeAgent now (i, d)).2.status = agentStatus (elapsedSeconds now d))
    ∧ (∀ e : ℚ, agentStatus e = "healthy" ∨ agentStatus e = "degraded"
          ∨ agentStatus e = "offline")
    ∧ (∀ e : ℚ, e ≤ 60 → agentStatus e = "healthy")
    ∧ (∀ e : ℚ, 60 < e → e ≤ 300 → agentStatus e = "degraded")
    ∧ (∀ e : ℚ, 300 < e → agentStatus e = "offline") := by
  refine ⟨fun now docs => rfl, fun now i d => rfl, ?_, ?_, ?_, ?_⟩
  · intro e
    unfold agentStatus
    split_ifs <;> tauto
  · intro e he
    unfold agentStatus
    rw [if_neg (not_lt.mpr (by linarith)), if_neg (not_lt.mpr (by linarith))]
  · intro e h1 h2
    unfold agentStatus
    rw [if_neg (not_lt.mpr (by linarith)), if_pos h1]
  · intro e h
    unfold agentStatus
    rw [if_pos h]

/-- C1 (witness): the amended thresholds evaluated at the two boundary
points. -/
theorem C1_agent_status_witness :
    ((60 : ℚ) ≤ 60 ∧ agentStatus 60 = "healthy")
    ∧ ((60 : ℚ) < 300 ∧ (300 : ℚ) ≤ 300 ∧ agentStatus 300 = "degraded") :=
  ⟨⟨le_refl _, C1_agent_status_amended.2.2.2.1 60 (le_refl _)⟩,
   ⟨by norm_num, le_refl _,
    C1_agent_status_amended.2.2.2.2.1 300 (by norm_num) (le_refl _)⟩⟩

/-- C2: whatever the request body, the workflow document persisted by the
workflow-creation handler (when one is persisted at all) has status
active, completed_today zero, creation timestamp equal to the invocation
time and the fixed creator identity; and for every successfully parsed
body, even one supplying its own values for those fields, exactly one
such document is appended. -/
theorem C2_workflow_fixed_fields :
    (∀ (now : Int) (newId : String) (body : RawBody) (ws : List (String × WorkflowDoc)),
       (handleCreateWorkflow now newId body ws).2 = ws
       ∨ ∃ w, (handleCreateWorkflow now newId body ws).2 = ws ++ [(newId, w)]
           ∧ w.status = some "active" ∧ w.completed_today = some 0
           ∧ w.created = some now ∧ w.created_by = some "dashboard_user")
    ∧ (∀ (now : Int) (newId : String) (obj : JsObj) (ws : List (String × WorkflowDoc)),
         ∃ w, (handleCreateWorkflow now newId (RawBody.valid obj) ws).2 = ws ++ [(newId, w)]
           ∧ w.status = some "active" ∧ w.completed_today = some 0
           ∧ w.created = some now ∧ w.created_by = some "dashboard_user") := by
  constructor
  · intro now newId body ws
    cases body with
    | absent => exact Or.inr ⟨buildWorkflow now {}, rfl, rfl, rfl, rfl, rfl⟩
    | malformed => exact Or.inl rfl
    | valid o => exact Or.inr ⟨buildWorkflow now o, rfl, rfl, rfl, rfl, rfl⟩
  · intro now newId obj ws
    exact ⟨buildWorkflow now obj, rfl, rfl, rfl, rfl, rfl⟩

/-- C3: the conversionRate field of the lead-metrics handler is the
one-decimal rendering of 0 when the lead collection is empty, and of
100 times the CONVERTED count over the total count otherwise; on an
empty collection the rendered field is exactly the string 0.0. -/
theorem C3_conversion_rate (tz now : Int) (leads : List Lead) :
    (handleGetLeadMetrics tz now leads).metrics.conversionRate
      = toFixed1 (if leads.length = 0 then 0
          else 100 * ((leads.filter (leadHasStatus "CONVERTED")).length : ℚ)
            / (leads.length : ℚ))
    ∧ (handleGetLeadMetrics tz now []).metrics.conversionRate = "0.0" := by
  constructor
  · simp only [handleGetLeadMetrics]
    congr 1
    rcases Nat.eq_zero_or_pos leads.length with h | h
    · simp [h]
    · rw [if_pos h, if_neg (by omega)]
      ring
  · simp only [handleGetLeadMetrics, List.filter, List.length, toFixed1]
    norm_num
    decide

/-- C4: the hot field of the lead-metrics handler counts, by a scan of
the full fetched lead list, exactly the leads whose score is present and
strictly greater than 0.8; a lead whose score is exactly 0.8 is not
counted. -/
theorem C4_hot_leads (tz now : Int) (leads : List Lead) :
    (handleGetLeadMetrics tz now leads).metrics.hot
      = (leads.filter leadIsHot).length
    ∧ (∀ l : Lead, leadIsHot l = true ↔ ∃ sc, l.score = some sc ∧ (0.8 : ℚ) < sc)
    ∧ (handleGetLeadMetrics 0 0 [{ score := some (0.8 : ℚ) }]).metrics.hot = 0 := by
  refine ⟨rfl, ?_, ?_⟩
  · intro l
    cases hs : l.score with
    | none => simp [leadIsHot, Option.any, hs]
    | some sc => simp [leadIsHot, Option.any, hs, decide_eq_true_eq]
  · simp only [handleGetLeadMetrics, leadIsHot, List.filter, Option.any]
    norm_num

/-- C5: a non-OPTIONS request matched by no case of the route table gets
a 404 whose body is the error object serializing to exactly the string
the claim quotes, with the store untouched (no handler runs); the empty
path has no segments, so it falls through to this case. -/
theorem C5_unknown_route_404 (tz now : Int) (newId : String) (st : Store)
    (method path : String) (body : RawBody)
    (hm : method ≠ "OPTIONS")
    (hr : route method (segmentsOf path) = Routed.notFound) :
    dispatch tz now newId st method path body
      = ({ statusCode := 404, headers := corsHeaders,
           body := .errorOnly "Endpoint not found" }, st)
    ∧ stringifyErrorOnly "Endpoint not found"
        = "\x7b\"error\":\"Endpoint not found\"\x7d"
    ∧ segmentsOf "" = [] := by
  refine ⟨?_, rfl, rfl⟩
  unfold dispatch
  rw [if_neg hm, hr]

/-- C5 (witness): a concrete unmatched GET produces the 404 response and
leaves the empty store unchanged. -/
theorem C5_unknown_route_witness :
    (("GET" : String) ≠ "OPTIONS")
    ∧ route "GET" (segmentsOf "/definitely/not/a/route") = Routed.notFound
    ∧ dispatch 0 0 "w1" ⟨[], [], [], []⟩ "GET" "/definitely/not/a/route" RawBody.absent
        = ({ statusCode := 404, headers := corsHeaders,
             body := .errorOnly "Endpoint not found" }, ⟨[], [], [], []⟩) :=
  ⟨by decide, by decide,
   (C5_unknown_route_404 0 0 "w1" ⟨[], [], [], []⟩ "GET" "/definitely/not/a/route"
      RawBody.absent (by decide) (by decide)).1⟩

/-- C6: for an existing alert id the resolution handler returns success
and stamps resolved, a resolution time and the fixed resolver identity
unconditionally; resolving again still succeeds with resolved staying
true (idempotence on the resolved flag); and no dispatched request of
the whole system ever takes a resolved alert back to unresolved. -/
theorem C6_resolve_idempotent (alertId : String) (now : Int)
    (alerts : List (String × Alert))
    (h : alerts.any (fun p => p.1 == alertId) = true) :
    (handleResolveAlert alertId now alerts).1.statusCode = 200
    ∧ (∀ p ∈ (handleResolveAlert alertId now alerts).2, p.1 = alertId →
         p.2.resolved = some true ∧ p.2.resolved_at = some now
           ∧ p.2.resolved_by = some "dashboard_user")
    ∧ (∀ now2 : Int,
         (handleResolveAlert alertId now2 (handleResolveAlert alertId now alerts).2).1.statusCode = 200
         ∧ ∀ p ∈ (handleResolveAlert alertId now2 (handleResolveAlert alertId now alerts).2).2,
             p.1 = alertId → p.2.resolved = some true)
    ∧ (∀ (tz now3 : Int) (newId : String) (st : Store) (method path : String)
         (body : RawBody), st.alerts = (handleResolveAlert alertId now alerts).2 →
         ∀ p ∈ (dispatch tz now3 newId st method path body).2.alerts,
           p.1 = alertId → p.2.resolved = some true) := by
  refine ⟨resolveAlert_status_ok alertId now alerts h,
          resolveAlert_sets_fields alertId now alerts, ?_, ?_⟩
  · intro now2
    have h2 : ((handleResolveAlert alertId now alerts).2).any
        (fun p => p.1 == alertId) = true := by
      rw [resolveAlert_any_preserved]
      exact h
    exact ⟨resolveAlert_status_ok alertId now2 _ h2,
           fun p hp hpi => (resolveAlert_sets_fields alertId now2 _ p hp hpi).1⟩
  · intro tz now3 newId st method path body hst p hp hpi
    have h0 : ∀ q ∈ st.alerts, q.1 = alertId → q.2.resolved = some true := by
      rw [hst]
      exact fun q hq hqi => (resolveAlert_sets_fields alertId now alerts q hq hqi).1
    exact dispatch_resolved_mono tz now3 newId st method path body alertId h0 p hp hpi

/-- C6 (witness): resolving an alert that is already resolved still
returns a 200. -/
theorem C6_resolve_witness :
    ([("a1", ({ resolved := some true } : Alert))].any (fun p => p.1 == "a1") = true)
    ∧ (handleResolveAlert "a1" 5 [("a1", ({ resolved := some true } : Alert))]).1.statusCode = 200 :=
  ⟨by decide,
   (C6_resolve_idempotent "a1" 5 [("a1", ({ resolved := some true } : Alert))] (by decide)).1⟩

/-- C7: every output field of the ROI handler follows the fixed formulas
of the claim, with the 50000 task figure a constant: swapping in any
other agent collection changes nothing but the reported agent count. -/
theorem C7_roi_formulas (agents : List (String × AgentDoc)) (leads : List Lead) :
    (handleCalculateROI agents leads).cost_savings_annual
        = mathRound (50000 * (0.083 : ℚ) * 75 * 12)
    ∧ (handleCalculateROI agents leads).revenue_from_leads_annual
        = mathRound (((leads.filter (leadHasStatus "CONVERTED")).length : ℚ) * 5000 * 12)
    ∧ (handleCalculateROI agents leads).time_saved_hours_annual
        = mathRound (50000 * (0.083 : ℚ) * 12)
    ∧ (handleCalculateROI agents leads).total_roi_annual
        = mathRound (50000 * (0.083 : ℚ) * 75 * 12
            + ((leads.filter (leadHasStatus "CONVERTED")).length : ℚ) * 5000 * 12)
    ∧ (handleCalculateROI agents leads).roi_multiple
        = toFixed1 ((50000 * (0.083 : ℚ) * 75 * 12
            + ((leads.filter (leadHasStatus "CONVERTED")).length : ℚ) * 5000 * 12) / 50000)
    ∧ (∀ agents2 : List (String × AgentDoc),
         handleCalculateROI agents2 leads
           = { handleCalculateROI agents leads with agents_deployed := agents2.length }) :=
  ⟨rfl, rfl, rfl, rfl, rfl, fun _ => rfl⟩

/-- C8 (counterexample): a present but malformed workflow-creation body
does not default to the empty object; the handler returns a 500 and
persists nothing. -/
theorem C8_malformed_body_counterexample :
    (handleCreateWorkflow 0 "w1" RawBody.malformed []).1.statusCode = 500
    ∧ (handleCreateWorkflow 0 "w1" RawBody.malformed []).2 = [] :=
  ⟨rfl, rfl⟩

/-- C8 (amended): the workflow-creation handler defaults to the empty
object only when the body is absent; a present but malformed body
surfaces as a 500 with nothing persisted, exactly as in the agent-command
handler, whose parse failure also surfaces as a 500. The two handlers
treat malformed bodies identically. -/
theorem C8_parse_failure_amended :
    (∀ (now : Int) (newId : String) (ws : List (String × WorkflowDoc)),
       (handleCreateWorkflow now newId RawBody.absent ws).1.statusCode = 200
       ∧ (handleCreateWorkflow now newId RawBody.absent ws).2
           = ws ++ [(newId, buildWorkflow now {})])
    ∧ (∀ (now : Int) (newId : String) (ws : List (String × WorkflowDoc)),
         (handleCreateWorkflow now newId RawBody.malformed ws).1.statusCode = 500
         ∧ (handleCreateWorkflow now newId RawBody.malformed ws).2 = ws)
    ∧ (∀ i : String, (handleAgentCommand i RawBody.malformed).statusCode = 500)
    ∧ (∀ (i : String) (obj : JsObj),
         (handleAgentCommand i (RawBody.valid obj)).statusCode = 200) :=
  ⟨fun _ _ _ => ⟨rfl, rfl⟩, fun _ _ _ => ⟨rfl, rfl⟩,
   fun _ => rfl, fun _ _ => rfl⟩

/-- C9: setHours mutates the invocation-time Date, so the timestamp
field of the lead-metrics response is local midnight of the invocation
day; whenever the invocation happens strictly after midnight the
reported timestamp is strictly earlier than the invocation time, and it
is never later. -/
theorem C9_timestamp_midnight (tz now : Int) (leads : List Lead) :
    (handleGetLeadMetrics tz now leads).timestamp = floorDay tz now
    ∧ ((now + tz) % msPerDay > 0 → (handleGetLeadMetrics tz now leads).timestamp < now)
    ∧ (handleGetLeadMetrics tz now leads).timestamp ≤ now := by
  refine ⟨rfl, ?_, ?_⟩
  · intro h
    show floorDay tz now < now
    simp only [floorDay, msPerDay] at h ⊢
    omega
  · show floorDay tz now ≤ now
    simp only [floorDay, msPerDay]
    omega

/-- C9 (witness): one millisecond after the epoch midnight, the reported
timestamp is already behind the invocation time. -/
theorem C9_timestamp_witness :
    ((1 + 0) % msPerDay > 0) ∧ (handleGetLeadMetrics 0 1 []).timestamp < 1 :=
  ⟨by decide, (C9_timestamp_midnight 0 1 []).2.1 (by decide)⟩

/-- C10: on an empty lead collection the ROI handler reports the
hard-coded 0.15 fallback rendered as the string 15.0, while the
lead-metrics handler reports 0.0 for the same collection. -/
theorem C10_roi_conversion_fallback (agents : List (String × AgentDoc)) (tz now : Int) :
    (handleCalculateROI agents []).conversion_rate = "15.0"
    ∧ (handleGetLeadMetrics tz now []).metrics.conversionRate = "0.0"
    ∧ ("15.0" : String) ≠ "0.0" := by
  refine ⟨?_, ?_, by decide⟩
  · simp only [handleCalculateROI, List.filter, List.length, toFixed1]
    norm_num
    decide
  · simp only [handleGetLeadMetrics, List.filter, List.length, toFixed1]
    norm_num
    decide

end Prometheus
